import Mathlib

/-!
Verification of the s3manager storage proxy (src/src/main.ts).

The proxy accepts HTTP requests, builds an S3 client from the
request-supplied configuration, issues a bounded sequence of SDK commands
and maps the result to an HTTP response.  We embed the request handlers as
pure functions that return the ordered list of SDK commands issued (the
trace) together with the HTTP outcome; the storage backend is an oracle
mapping each command to success or to an error message.
-/

namespace S3Manager

/-- Request-supplied client configuration (the `config` object of every
request body).  Each field may be absent; JavaScript truthiness treats an
absent field and the empty string alike. -/
structure Config where
  region : Option String
  accessKeyId : Option String
  secretAccessKey : Option String
  endpoint : Option String
deriving Repr, DecidableEq

/-- JavaScript truthiness of an optional string field: false exactly when
the field is absent or the empty string. -/
def truthy : Option String → Bool
  | none => false
  | some s => s != ""

/-- Static credential pair placed on the constructed client. -/
structure Credentials where
  accessKeyId : String
  secretAccessKey : String
deriving Repr, DecidableEq

/-- The configuration object handed to the `S3Client` constructor.
`endpoint` and `forcePathStyle` are `none` when the corresponding key is
not set on the object. -/
structure ClientConfig where
  region : String
  credentials : Credentials
  endpoint : Option String
  forcePathStyle : Option Bool
deriving Repr, DecidableEq

/-- The message of the error thrown by `createS3Client` (main.ts line 30). -/
def missingConfigMsg : String :=
  "Missing AWS configuration. Region, Access Key, and Secret Key are required."

/-- Embedding of `createS3Client` (main.ts lines 28-49): throws when the
config object or any of region / accessKeyId / secretAccessKey is falsy;
otherwise builds the client configuration, adding the endpoint override
and `forcePathStyle: true` only when `config.endpoint` is truthy. -/
def createS3Client (config : Option Config) : Except String ClientConfig :=
  match config with
  | none => Except.error missingConfigMsg
  | some c =>
    if truthy c.region && truthy c.accessKeyId && truthy c.secretAccessKey then
      let base : ClientConfig :=
        { region := c.region.getD ""
          credentials :=
            { accessKeyId := c.accessKeyId.getD ""
              secretAccessKey := c.secretAccessKey.getD "" }
          endpoint := none
          forcePathStyle := none }
      if truthy c.endpoint then
        Except.ok { base with endpoint := c.endpoint, forcePathStyle := some true }
      else
        Except.ok base
    else
      Except.error missingConfigMsg

/-- SDK commands the proxy can send to the storage backend. -/
inductive S3Command where
  | listBuckets : S3Command
  | createBucket (bucket : String) (locationConstraint : Option String) : S3Command
  | putObject (bucket key body : String) : S3Command
  | upload (bucket key : String) (body : List Nat) (contentType : String) : S3Command
  | deleteObjects (bucket : String) (keys : List (Option String)) : S3Command
  | deleteBucket (bucket : Option String) : S3Command
deriving Repr, DecidableEq

/-- The storage backend as an oracle: each sent command either succeeds or
raises an error message. -/
abbrev Backend := S3Command → Except String Unit

/-- Outcome of a request handler: HTTP status plus either a success body
(success:true with a message) or an error body carrying the message of the
caught exception. -/
inductive HandlerResult where
  | success (status : Nat) (message : String) : HandlerResult
  | failure (status : Nat) (error : String) : HandlerResult
deriving Repr, DecidableEq

/-- Embedding of the POST /api/connect handler (main.ts lines 56-67):
build the client, send `ListBucketsCommand`; any caught error is returned
with status 400 and the error message verbatim. -/
def runConnect (backend : Backend) (config : Option Config) :
    List S3Command × HandlerResult :=
  match createS3Client config with
  | Except.error e => ([], HandlerResult.failure 400 e)
  | Except.ok _ =>
    match backend S3Command.listBuckets with
    | Except.ok _ =>
      ([S3Command.listBuckets], HandlerResult.success 200 "Connection successful")
    | Except.error e => ([S3Command.listBuckets], HandlerResult.failure 400 e)

/-- Embedding of the POST /api/buckets/create handler (main.ts lines
107-124): the `CreateBucketCommand` carries a `CreateBucketConfiguration`
with `LocationConstraint: region` exactly when the request region differs
from us-east-1. -/
def runCreateBucket (backend : Backend) (config : Option Config)
    (bucketName region : String) : List S3Command × HandlerResult :=
  match createS3Client config with
  | Except.error e => ([], HandlerResult.failure 500 e)
  | Except.ok _ =>
    let cmd := S3Command.createBucket bucketName
      (if region != "us-east-1" then some region else none)
    match backend cmd with
    | Except.ok _ =>
      ([cmd], HandlerResult.success 200 ("Bucket " ++ bucketName ++ " created."))
    | Except.error e => ([cmd], HandlerResult.failure 500 e)

/-- One entry of the `items` array of a delete request; objects carry a
`Key`, buckets carry a `Name`. -/
structure DeleteItem where
  isBucket : Bool
  Key : Option String
  Name : Option String
deriving Repr, DecidableEq

/-- The object-deletion subset, `items.filter(item => !item.isBucket)`
(main.ts line 234). -/
def objectItems (items : List DeleteItem) : List DeleteItem :=
  items.filter (fun i => !i.isBucket)

/-- The bucket-deletion subset, `items.filter(item => item.isBucket)`
(main.ts line 235). -/
def bucketItems (items : List DeleteItem) : List DeleteItem :=
  items.filter (fun i => i.isBucket)

/-- The sequential bucket-deletion loop (main.ts lines 248-250): one
`DeleteBucketCommand` per item, awaited in order; a failed send throws,
aborting the loop, and is caught as a 500. -/
def deleteBucketsPhase (backend : Backend) :
    List DeleteItem → List S3Command × HandlerResult
  | [] => ([], HandlerResult.success 200 "Items deleted successfully.")
  | b :: bs =>
    let cmd := S3Command.deleteBucket b.Name
    match backend cmd with
    | Except.error e => ([cmd], HandlerResult.failure 500 e)
    | Except.ok _ =>
      let r := deleteBucketsPhase backend bs
      (cmd :: r.1, r.2)

/-- Embedding of the POST /api/delete handler (main.ts lines 228-258):
partition the items; if any object items exist, require a truthy bucket
name and send one batched `DeleteObjectsCommand`; then delete the bucket
items one at a time; any thrown error yields a 500 response. -/
def runDelete (backend : Backend) (config : Option Config)
    (bucket : Option String) (items : List DeleteItem) :
    List S3Command × HandlerResult :=
  match createS3Client config with
  | Except.error e => ([], HandlerResult.failure 500 e)
  | Except.ok _ =>
    if (objectItems items).length > 0 then
      match bucket with
      | none => ([], HandlerResult.failure 500 "Bucket name is required for deleting objects.")
      | some b =>
        if b == "" then
          ([], HandlerResult.failure 500 "Bucket name is required for deleting objects.")
        else
          let cmd := S3Command.deleteObjects b ((objectItems items).map (fun i => i.Key))
          match backend cmd with
          | Except.error e => ([cmd], HandlerResult.failure 500 e)
          | Except.ok _ =>
            let r := deleteBucketsPhase backend (bucketItems items)
            (cmd :: r.1, r.2)
    else
      deleteBucketsPhase backend (bucketItems items)

/-- Recognizer for `DeleteBucketCommand` entries of a trace. -/
def isDeleteBucketCmd : S3Command → Bool
  | S3Command.deleteBucket _ => true
  | _ => false

/-- One file part of a multipart upload request: the original file name,
content type, byte length observed by the form reader, and the resolved
representation — either an in-memory buffer (`content`) or a temporary
on-disk path (`filename`). -/
structure UploadFile where
  originalName : String
  contentType : String
  size : Nat
  content : Option (List Nat)
  filename : Option String
deriving Repr, DecidableEq

/-- The configured maximum file size, 100 MiB (main.ts line 151). -/
def maxUploadSize : Nat := 100 * 1024 * 1024

/-- Modelled from the spec: the multipart form reader (oak's
`FormDataReader.read` with `maxFileSize`, main.ts line 151) is third-party
code not in this repository.  Per the spec, any individual file exceeding
the configured maximum is rejected before per-file processing begins,
failing the whole request with an error naming that file. -/
def readFormData (maxFileSize : Nat) (files : List UploadFile) :
    Except String (List UploadFile) :=
  match files.find? (fun f => maxFileSize < f.size) with
  | some f => Except.error ("File size limit exceeded: " ++ f.originalName)
  | none => Except.ok files

/-- Byte resolution of one file part (main.ts lines 165-175): take the
in-memory content when present, otherwise read the temporary file from
disk (the disk is an oracle from path to bytes), otherwise nothing. -/
def resolvedData (disk : String → List Nat) (f : UploadFile) :
    Option (List Nat) :=
  match f.content with
  | some d => some d
  | none =>
    match f.filename with
    | some p => some (disk p)
    | none => none

/-- Resolved byte length of a file part; an unresolved part counts as
zero, matching the skip condition on main.ts line 177. -/
def resolvedLength (disk : String → List Nat) (f : UploadFile) : Nat :=
  ((resolvedData disk f).getD []).length

/-- Per-file upload task (main.ts lines 164-212): skip the file when its
resolved data is missing or empty, otherwise send one upload of the bytes
to key `path + originalName`; a failed upload rejects with a message
naming the file.  Returns the command issued for this file (if any) and
the task's outcome. -/
def processFile (disk : String → List Nat) (backend : Backend)
    (bucket path : String) (f : UploadFile) :
    Option S3Command × Except String Unit :=
  match resolvedData disk f with
  | none => (none, Except.ok ())
  | some d =>
    if d.length = 0 then (none, Except.ok ())
    else
      let key := path ++ f.originalName
      let cmd := S3Command.upload bucket key d f.contentType
      match backend cmd with
      | Except.ok _ => (some cmd, Except.ok ())
      | Except.error e =>
        (some cmd, Except.error ("Failed to upload " ++ f.originalName ++ ": " ++
          (if e == "" then "Unknown S3 error" else e)))

/-- Embedding of the POST /api/upload handler (main.ts lines 147-224):
read the multipart form (rejecting oversized files), build the client,
start one upload task per file and join them all; the request succeeds
only when every task does, and any error is returned with status 500. -/
def runUpload (disk : String → List Nat) (backend : Backend)
    (config : Option Config) (bucket path : String)
    (files : List UploadFile) : List S3Command × HandlerResult :=
  match readFormData maxUploadSize files with
  | Except.error e => ([], HandlerResult.failure 500 e)
  | Except.ok fs =>
    match createS3Client config with
    | Except.error e => ([], HandlerResult.failure 500 e)
    | Except.ok _ =>
      let results := fs.map (processFile disk backend bucket path)
      let trace := results.filterMap Prod.fst
      match results.findSome? (fun r =>
          match r.2 with
          | Except.error e => some e
          | Except.ok _ => none) with
      | some e => (trace, HandlerResult.failure 500 e)
      | none => (trace, HandlerResult.success 200 "All files processed.")

/-- The API routes of the proxy (main.ts routers). -/
inductive Route where
  | connect : Route
  | buckets : Route
  | objects : Route
  | bucketsCreate : Route
  | foldersCreate : Route
  | upload : Route
  | delete : Route
deriving Repr, DecidableEq

/-- The HTTP status each handler's catch block sets on failure: 400 for
/connect (main.ts line 64), 500 for every other route (main.ts lines 78,
101, 121, 141, 221, 255). -/
def failureStatus : Route → Nat
  | Route.connect => 400
  | Route.buckets => 500
  | Route.objects => 500
  | Route.bucketsCreate => 500
  | Route.foldersCreate => 500
  | Route.upload => 500
  | Route.delete => 500

/-- A fully specified configuration used to exercise the theorems. -/
def cfg0 : Config :=
  { region := some "us-east-1", accessKeyId := some "AK"
    secretAccessKey := some "SK", endpoint := none }

/-- The client configuration `createS3Client` builds from `cfg0`. -/
def client0 : ClientConfig :=
  { region := "us-east-1"
    credentials := { accessKeyId := "AK", secretAccessKey := "SK" }
    endpoint := none, forcePathStyle := none }

/-- A configuration whose region field is absent. -/
def cfgNoRegion : Config :=
  { region := none, accessKeyId := some "AK"
    secretAccessKey := some "SK", endpoint := none }

/-- A configuration carrying an endpoint that is present but empty. -/
def cfgEmptyEndpoint : Config :=
  { region := some "eu-west-1", accessKeyId := some "AK"
    secretAccessKey := some "SK", endpoint := some "" }

/-- A configuration with a non-empty custom endpoint. -/
def cfgMinio : Config :=
  { region := some "eu-west-1", accessKeyId := some "AK"
    secretAccessKey := some "SK", endpoint := some "http://minio:9000" }

/-- The client configuration `createS3Client` builds from `cfgMinio`. -/
def clientMinio : ClientConfig :=
  { region := "eu-west-1"
    credentials := { accessKeyId := "AK", secretAccessKey := "SK" }
    endpoint := some "http://minio:9000", forcePathStyle := some true }

/-- A backend on which every command succeeds. -/
def okBackend : Backend := fun _ => Except.ok ()

/-- A backend on which every command fails with message "boom". -/
def errBackend : Backend := fun _ => Except.error "boom"

/-- A backend that rejects exactly the deletion of bucket b1. -/
def failB1Backend : Backend := fun c =>
  if c = S3Command.deleteBucket (some "b1") then Except.error "boom" else Except.ok ()

/-- A delete-request item denoting an object with key k. -/
def itemObj : DeleteItem := { isBucket := false, Key := some "k", Name := none }

/-- A delete-request item denoting bucket b1. -/
def itemBkt : DeleteItem := { isBucket := true, Key := none, Name := some "b1" }

/-- A delete-request item denoting bucket b2. -/
def itemBkt2 : DeleteItem := { isBucket := true, Key := none, Name := some "b2" }

/-- A disk oracle on which every temporary path holds no bytes. -/
def emptyDisk : String → List Nat := fun _ => []

/-- An upload file part whose in-memory content is empty. -/
def emptyFile : UploadFile :=
  { originalName := "empty.txt", contentType := "text/plain"
    size := 0, content := some [], filename := none }

/-- An upload file part with two bytes of in-memory content. -/
def smallFile : UploadFile :=
  { originalName := "a.txt", contentType := "text/plain"
    size := 2, content := some [104, 105], filename := none }

/-- An upload file part one byte over the 100 MiB limit. -/
def bigFile : UploadFile :=
  { originalName := "big.bin", contentType := "application/octet-stream"
    size := 100 * 1024 * 1024 + 1, content := none, filename := some "/tmp/big" }

/-- Counterexample for C1: with the region absent, client construction
does fail, but the thrown message is the full sentence of main.ts line 30,
not the string "missing AWS configuration" the claim asserts. -/
theorem c1_counterexample :
    createS3Client (some cfgNoRegion) = Except.error missingConfigMsg
    ∧ missingConfigMsg ≠ "missing AWS configuration" := by
  exact ⟨rfl, by decide⟩

/-- C1 (amended): for every config in which region, accessKeyId or
secretAccessKey is absent or empty, createS3Client fails with the error
message "Missing AWS configuration. Region, Access Key, and Secret Key
are required." and returns no client; for every config with all three
fields non-empty, construction succeeds. -/
theorem c1_validation (c : Config) :
    ((truthy c.region = false ∨ truthy c.accessKeyId = false ∨
        truthy c.secretAccessKey = false) →
      createS3Client (some c) = Except.error missingConfigMsg)
    ∧ ((truthy c.region = true ∧ truthy c.accessKeyId = true ∧
        truthy c.secretAccessKey = true) →
      ∃ cc, createS3Client (some c) = Except.ok cc) := by
  constructor
  · intro h
    unfold createS3Client
    rcases h with h | h | h <;> simp [h]
  · rintro ⟨h1, h2, h3⟩
    unfold createS3Client
    simp only [h1, h2, h3, Bool.and_self, if_true]
    split
    · exact ⟨_, rfl⟩
    · exact ⟨_, rfl⟩

/-- Witness for C1: the amended theorem applied to a config with region
absent and to a complete config. -/
theorem c1_validation_witness :
    createS3Client (some cfgNoRegion) = Except.error missingConfigMsg
    ∧ ∃ cc, createS3Client (some cfg0) = Except.ok cc :=
  ⟨(c1_validation cfgNoRegion).1 (Or.inl rfl),
   (c1_validation cfg0).2 ⟨rfl, rfl, rfl⟩⟩

/-- Counterexample for C5: a config whose endpoint field is present but
empty; the constructed client has no endpoint override and no path-style
flag, contradicting the claim that every present endpoint is set. -/
theorem c5_counterexample :
    cfgEmptyEndpoint.endpoint.isSome = true
    ∧ createS3Client (some cfgEmptyEndpoint) = Except.ok
        { region := "eu-west-1"
          credentials := { accessKeyId := "AK", secretAccessKey := "SK" }
          endpoint := none, forcePathStyle := none } := by
  exact ⟨rfl, rfl⟩

/-- C5 (amended): for every config whose endpoint is present and
non-empty, the constructed client has that endpoint and forcePathStyle
true; for every config whose endpoint is absent or empty, the client has
no endpoint override and no path-style flag. -/
theorem c5_endpoint_path_style (c : Config) (cc : ClientConfig)
    (h : createS3Client (some c) = Except.ok cc) :
    (truthy c.endpoint = true →
      cc.endpoint = c.endpoint ∧ cc.forcePathStyle = some true)
    ∧ (truthy c.endpoint = false →
      cc.endpoint = none ∧ cc.forcePathStyle = none) := by
  unfold createS3Client at h
  dsimp only at h
  by_cases hv : (truthy c.region && truthy c.accessKeyId &&
      truthy c.secretAccessKey) = true
  · rw [if_pos hv] at h
    by_cases he : truthy c.endpoint = true
    · rw [if_pos he] at h
      injection h with h
      subst h
      exact ⟨fun _ => ⟨rfl, rfl⟩, fun hf => by rw [he] at hf; cases hf⟩
    · rw [if_neg he] at h
      injection h with h
      subst h
      exact ⟨fun ht => absurd ht he, fun _ => ⟨rfl, rfl⟩⟩
  · rw [if_neg hv] at h
    cases h

/-- Witness for C5: the amended theorem applied to a MinIO-style config
with a non-empty endpoint. -/
theorem c5_endpoint_path_style_witness :
    clientMinio.endpoint = cfgMinio.endpoint
    ∧ clientMinio.forcePathStyle = some true :=
  (c5_endpoint_path_style cfgMinio clientMinio rfl).1 rfl

/-- C2 (confirmed): whenever the client can be constructed, the bucket
creation handler sends exactly one CreateBucket command, with no location
constraint when the region is us-east-1 and with the region string
verbatim as LocationConstraint otherwise. -/
theorem c2_location_constraint (backend : Backend) (config : Option Config)
    (bucketName region : String) (cc : ClientConfig)
    (hc : createS3Client config = Except.ok cc) :
    (runCreateBucket backend config bucketName region).1 =
      [S3Command.createBucket bucketName
        (if region = "us-east-1" then none else some region)] := by
  unfold runCreateBucket
  rw [hc]
  by_cases h : region = "us-east-1"
  · simp only [h, bne_self_eq_false, if_neg, reduceIte]
    cases hb : backend (S3Command.createBucket bucketName none) <;> simp [hb]
  · have hb : (region != "us-east-1") = true := bne_iff_ne.mpr h
    simp only [hb, if_pos, if_neg h, reduceIte]
    cases hb2 : backend (S3Command.createBucket bucketName (some region)) <;> simp [hb2]

/-- Witness for C2: creating bucket demo in eu-west-1 issues one
CreateBucket command carrying LocationConstraint eu-west-1. -/
theorem c2_location_constraint_witness :
    (runCreateBucket okBackend (some cfg0) "demo" "eu-west-1").1 =
      [S3Command.createBucket "demo" (some "eu-west-1")] :=
  c2_location_constraint okBackend (some cfg0) "demo" "eu-west-1" client0 rfl

/-- When the backend accepts every bucket deletion, the sequential loop
issues one DeleteBucket command per item, in input order, and the request
succeeds. -/
theorem deleteBucketsPhase_all_ok (backend : Backend) (bs : List DeleteItem)
    (hb : ∀ b ∈ bs, backend (S3Command.deleteBucket b.Name) = Except.ok ()) :
    deleteBucketsPhase backend bs =
      (bs.map (fun b => S3Command.deleteBucket b.Name),
       HandlerResult.success 200 "Items deleted successfully.") := by
  induction bs with
  | nil => rfl
  | cons b bs ih =>
    have h1 := hb b (List.mem_cons_self b bs)
    have h2 : ∀ x ∈ bs, backend (S3Command.deleteBucket x.Name) = Except.ok () :=
      fun x hx => hb x (List.mem_cons_of_mem b hx)
    simp [deleteBucketsPhase, h1, ih h2]

/-- When the backend accepts every bucket deletion before some item and
rejects that item's deletion, the loop issues exactly the deletions up to
and including the failing one and the request fails with status 500. -/
theorem deleteBucketsPhase_aborts (backend : Backend)
    (pre post : List DeleteItem) (bitem : DeleteItem) (e : String)
    (hpre : ∀ x ∈ pre, backend (S3Command.deleteBucket x.Name) = Except.ok ())
    (hfail : backend (S3Command.deleteBucket bitem.Name) = Except.error e) :
    deleteBucketsPhase backend (pre ++ bitem :: post) =
      ((pre ++ [bitem]).map (fun b => S3Command.deleteBucket b.Name),
       HandlerResult.failure 500 e) := by
  induction pre with
  | nil => simp [deleteBucketsPhase, hfail]
  | cons b bs ih =>
    have h1 := hpre b (List.mem_cons_self b bs)
    have h2 : ∀ x ∈ bs, backend (S3Command.deleteBucket x.Name) = Except.ok () :=
      fun x hx => hpre x (List.mem_cons_of_mem b hx)
    simp [deleteBucketsPhase, h1, ih h2]

/-- A trace made only of DeleteBucket commands is kept whole by the
DeleteBucket filter. -/
theorem filter_deleteBucket_map (l : List DeleteItem) :
    (l.map (fun x => S3Command.deleteBucket x.Name)).filter isDeleteBucketCmd =
      l.map (fun x => S3Command.deleteBucket x.Name) := by
  apply List.filter_eq_self.mpr
  intro c hc
  rcases List.mem_map.mp hc with ⟨x, _, rfl⟩
  rfl

/-- Counterexample for C3: a delete request holding one object item and
one bucket item but no bucket field; the handler issues no backend call at
all (the claimed batched delete-objects call in particular) and fails. -/
theorem c3_counterexample :
    (∃ i ∈ [itemObj, itemBkt], i.isBucket = false)
    ∧ (∃ i ∈ [itemObj, itemBkt], i.isBucket = true)
    ∧ (runDelete okBackend (some cfg0) none [itemObj, itemBkt]).1 = []
    ∧ (runDelete okBackend (some cfg0) none [itemObj, itemBkt]).2 =
        HandlerResult.failure 500 "Bucket name is required for deleting objects." := by
  refine ⟨⟨itemObj, by simp, rfl⟩, ⟨itemBkt, by simp, rfl⟩, rfl, rfl⟩

/-- C3 (amended): for every delete request with a constructible client, a
present non-empty bucket field, at least one object item and at least one
bucket item, when the backend accepts every call the proxy issues exactly
one batched delete-objects call covering all object items and after it one
delete-bucket call per bucket item, in the order the bucket items appear
in the input. -/
theorem c3_batched_then_buckets (backend : Backend) (config : Option Config)
    (b : String) (items : List DeleteItem) (cc : ClientConfig)
    (hc : createS3Client config = Except.ok cc)
    (hb : ∀ c, backend c = Except.ok ())
    (hobj : objectItems items ≠ [])
    (hbkt : bucketItems items ≠ [])
    (hbe : b ≠ "") :
    runDelete backend config (some b) items =
      (S3Command.deleteObjects b ((objectItems items).map (fun i => i.Key)) ::
        (bucketItems items).map (fun i => S3Command.deleteBucket i.Name),
       HandlerResult.success 200 "Items deleted successfully.") := by
  unfold runDelete
  rw [hc]
  have hlen : (objectItems items).length > 0 := List.length_pos.mpr hobj
  have hb0 : (b == "") = false := beq_eq_false_iff_ne.mpr hbe
  simp only [hlen, if_pos, hb0, Bool.false_eq_true, reduceIte, hb]
  rw [deleteBucketsPhase_all_ok backend (bucketItems items) (fun x _ => hb _)]

/-- Witness for C3: one object and two buckets, all calls accepted. -/
theorem c3_batched_then_buckets_witness :
    runDelete okBackend (some cfg0) (some "bk") [itemObj, itemBkt, itemBkt2] =
      (S3Command.deleteObjects "bk" [some "k"] ::
        [S3Command.deleteBucket (some "b1"), S3Command.deleteBucket (some "b2")],
       HandlerResult.success 200 "Items deleted successfully.") :=
  c3_batched_then_buckets okBackend (some cfg0) "bk" [itemObj, itemBkt, itemBkt2]
    client0 rfl (fun _ => rfl) (by decide) (by decide) (by decide)

/-- C4 (confirmed): for every delete request with a constructible client,
a non-empty item list containing only object items, and no bucket field,
the handler issues no backend call and fails with status 500 and the
message of main.ts line 239. -/
theorem c4_missing_bucket (backend : Backend) (config : Option Config)
    (items : List DeleteItem) (cc : ClientConfig)
    (hc : createS3Client config = Except.ok cc)
    (hne : items ≠ [])
    (hall : ∀ i ∈ items, i.isBucket = false) :
    runDelete backend config none items =
      ([], HandlerResult.failure 500 "Bucket name is required for deleting objects.") := by
  unfold runDelete
  rw [hc]
  have hobj : objectItems items = items :=
    List.filter_eq_self.mpr (fun i hi => by simp [hall i hi])
  have hlen : (objectItems items).length > 0 := by
    rw [hobj]
    exact List.length_pos.mpr hne
  simp [hlen]

/-- Witness for C4: a single object item with no bucket field. -/
theorem c4_missing_bucket_witness :
    runDelete okBackend (some cfg0) none [itemObj] =
      ([], HandlerResult.failure 500 "Bucket name is required for deleting objects.") :=
  c4_missing_bucket okBackend (some cfg0) [itemObj] client0 rfl (by decide)
    (by decide)

/-- C9 (confirmed): for every delete request with a constructible client
and an empty item list, even with the bucket field absent, the handler
issues no backend call and succeeds with status 200 and the message
Items deleted successfully. -/
theorem c9_empty_items_success (backend : Backend) (config : Option Config)
    (bucket : Option String) (cc : ClientConfig)
    (hc : createS3Client config = Except.ok cc) :
    runDelete backend config bucket [] =
      ([], HandlerResult.success 200 "Items deleted successfully.") := by
  unfold runDelete
  rw [hc]
  rfl

/-- Witness for C9: an empty item list with no bucket field. -/
theorem c9_empty_items_success_witness :
    runDelete okBackend (some cfg0) none [] =
      ([], HandlerResult.success 200 "Items deleted successfully.") :=
  c9_empty_items_success okBackend (some cfg0) none client0 rfl

/-- C10 (confirmed): for every delete request with a constructible client
whose object phase passes (no object items, or a truthy bucket and an
accepted batched delete), if the backend accepts the bucket deletions
before some bucket item and rejects that item's deletion, then the request
fails and the DeleteBucket commands issued are exactly those for the
bucket items up to and including the failing one — none after it. -/
theorem c10_bucket_loop_aborts (backend : Backend) (config : Option Config)
    (bucket : Option String) (items : List DeleteItem) (cc : ClientConfig)
    (pre post : List DeleteItem) (bitem : DeleteItem) (e : String)
    (hc : createS3Client config = Except.ok cc)
    (hsplit : bucketItems items = pre ++ bitem :: post)
    (hpre : ∀ x ∈ pre, backend (S3Command.deleteBucket x.Name) = Except.ok ())
    (hfail : backend (S3Command.deleteBucket bitem.Name) = Except.error e)
    (hobjphase : objectItems items = [] ∨
      ∃ b, bucket = some b ∧ b ≠ "" ∧
        backend (S3Command.deleteObjects b
          ((objectItems items).map (fun i => i.Key))) = Except.ok ()) :
    (runDelete backend config bucket items).2 = HandlerResult.failure 500 e
    ∧ (runDelete backend config bucket items).1.filter isDeleteBucketCmd =
        (pre ++ [bitem]).map (fun x => S3Command.deleteBucket x.Name) := by
  have hphase := deleteBucketsPhase_aborts backend pre post bitem e hpre hfail
  unfold runDelete
  rw [hc, hsplit, hphase]
  rcases hobjphase with h0 | ⟨b, hb, hbe, hok⟩
  · rw [h0]
    exact ⟨rfl, filter_deleteBucket_map (pre ++ [bitem])⟩
  · subst hb
    by_cases h0 : objectItems items = []
    · rw [h0]
      simp only [List.length_nil, gt_iff_lt, Nat.lt_irrefl, reduceIte]
      exact ⟨trivial, filter_deleteBucket_map (pre ++ [bitem])⟩
    · have hlen : (objectItems items).length > 0 := List.length_pos.mpr h0
      have hb0 : (b == "") = false := beq_eq_false_iff_ne.mpr hbe
      simp only [hlen, if_pos, hb0, Bool.false_eq_true, reduceIte, hok]
      constructor
      · trivial
      · rw [List.filter_cons_of_neg]
        · exact filter_deleteBucket_map (pre ++ [bitem])
        · simp [isDeleteBucketCmd]

/-- Witness for C10: two bucket items where the first deletion is
rejected; only the first DeleteBucket command is issued. -/
theorem c10_bucket_loop_aborts_witness :
    (runDelete failB1Backend (some cfg0) none [itemBkt, itemBkt2]).2 =
      HandlerResult.failure 500 "boom"
    ∧ (runDelete failB1Backend (some cfg0) none [itemBkt, itemBkt2]).1.filter
        isDeleteBucketCmd = [S3Command.deleteBucket (some "b1")] :=
  c10_bucket_loop_aborts failB1Backend (some cfg0) none [itemBkt, itemBkt2]
    client0 [] [itemBkt2] itemBkt "boom" rfl rfl
    (fun x hx => absurd hx (List.not_mem_nil x)) rfl (Or.inl rfl)

/-- When no file exceeds the configured maximum, the form reader returns
all the file parts unchanged. -/
theorem readFormData_ok (files : List UploadFile)
    (h : ∀ g ∈ files, g.size ≤ maxUploadSize) :
    readFormData maxUploadSize files = Except.ok files := by
  unfold readFormData
  have hn : files.find? (fun f => decide (maxUploadSize < f.size)) = none := by
    apply List.find?_eq_none.mpr
    intro x hx
    simp only [decide_eq_true_eq, Nat.not_lt]
    exact h x hx
  rw [hn]

/-- On a backend accepting every command, each per-file upload task
settles successfully. -/
theorem processFile_ok (disk : String → List Nat) (backend : Backend)
    (bucket path : String) (f : UploadFile)
    (hb : ∀ c, backend c = Except.ok ()) :
    (processFile disk backend bucket path f).2 = Except.ok () := by
  unfold processFile
  rcases h : resolvedData disk f with _ | d
  · rfl
  · by_cases hd : d.length = 0 <;> simp [hd, hb]

/-- C6 (confirmed): in an upload request with a constructible client, all
files within the size limit and an accepting backend, a file part whose
resolved byte length is zero contributes no upload command (hence no
destination object), the request still succeeds, and every file part with
non-zero resolved length contributes its upload command to the trace. -/
theorem c6_skip_empty_files (disk : String → List Nat) (backend : Backend)
    (config : Option Config) (cc : ClientConfig) (bucket path : String)
    (files : List UploadFile) (f : UploadFile)
    (hc : createS3Client config = Except.ok cc)
    (hsize : ∀ g ∈ files, g.size ≤ maxUploadSize)
    (hb : ∀ c, backend c = Except.ok ())
    (hf : f ∈ files)
    (hzero : resolvedLength disk f = 0) :
    (processFile disk backend bucket path f).1 = none
    ∧ (runUpload disk backend config bucket path files).1 =
        files.filterMap (fun g => (processFile disk backend bucket path g).1)
    ∧ (runUpload disk backend config bucket path files).2 =
        HandlerResult.success 200 "All files processed."
    ∧ (∀ g ∈ files, resolvedLength disk g ≠ 0 →
        (processFile disk backend bucket path g).1 =
          some (S3Command.upload bucket (path ++ g.originalName)
            ((resolvedData disk g).getD []) g.contentType)) := by
  have hskip : (processFile disk backend bucket path f).1 = none := by
    unfold processFile
    rcases h : resolvedData disk f with _ | d
    · rfl
    · have hd : d.length = 0 := by
        unfold resolvedLength at hzero
        rw [h] at hzero
        exact hzero
      simp [hd]
  have hnone : (files.map (processFile disk backend bucket path)).findSome?
      (fun r => match r.2 with
        | Except.error e => some e
        | Except.ok _ => none) = none := by
    apply List.findSome?_eq_none_iff.mpr
    intro r hr
    rcases List.mem_map.mp hr with ⟨g, _, rfl⟩
    rw [processFile_ok disk backend bucket path g hb]
  refine ⟨hskip, ?_, ?_, ?_⟩
  · unfold runUpload
    rw [readFormData_ok files hsize, hc]
    dsimp only
    rw [hnone]
    exact List.filterMap_map (processFile disk backend bucket path) Prod.fst files
  · unfold runUpload
    rw [readFormData_ok files hsize, hc]
    dsimp only
    rw [hnone]
  · intro g hg hgz
    unfold processFile
    rcases h : resolvedData disk g with _ | d
    · unfold resolvedLength at hgz
      rw [h] at hgz
      exact absurd rfl hgz
    · have hd : d.length ≠ 0 := by
        unfold resolvedLength at hgz
        rw [h] at hgz
        exact hgz
      simp [hd, hb]

/-- Witness for C6: one empty and one two-byte file; only the non-empty
file is uploaded and the request succeeds. -/
theorem c6_skip_empty_files_witness :
    (processFile emptyDisk okBackend "bk" "p/" emptyFile).1 = none
    ∧ (runUpload emptyDisk okBackend (some cfg0) "bk" "p/"
        [emptyFile, smallFile]).1 =
      [emptyFile, smallFile].filterMap
        (fun g => (processFile emptyDisk okBackend "bk" "p/" g).1)
    ∧ (runUpload emptyDisk okBackend (some cfg0) "bk" "p/"
        [emptyFile, smallFile]).2 =
      HandlerResult.success 200 "All files processed."
    ∧ (∀ g ∈ [emptyFile, smallFile], resolvedLength emptyDisk g ≠ 0 →
        (processFile emptyDisk okBackend "bk" "p/" g).1 =
          some (S3Command.upload "bk" ("p/" ++ g.originalName)
            ((resolvedData emptyDisk g).getD []) g.contentType)) :=
  c6_skip_empty_files emptyDisk okBackend (some cfg0) client0 "bk" "p/"
    [emptyFile, smallFile] emptyFile rfl (by decide) (fun _ => rfl)
    (by simp) rfl

/-- Helper: find? returns the unique element satisfying the predicate. -/
theorem find?_of_unique {α : Type} {p : α → Bool} {l : List α} {f : α}
    (hf : f ∈ l) (hpf : p f = true) (huniq : ∀ g ∈ l, p g = true → g = f) :
    l.find? p = some f := by
  induction l with
  | nil => cases hf
  | cons a l ih =>
    by_cases ha : p a = true
    · have haf : a = f := huniq a (List.mem_cons_self a l) ha
      rw [List.find?_cons_of_pos l ha, haf]
    · have haf : a ≠ f := fun h => ha (h ▸ hpf)
      have hf2 : f ∈ l := by
        rcases List.mem_cons.mp hf with h | h
        · exact absurd h.symm haf
        · exact h
      rw [List.find?_cons_of_neg l (by simp [ha])]
      exact ih hf2 (fun g hg hpg => huniq g (List.mem_cons_of_mem a hg) hpg)

/-- C7 (confirmed): in an upload request where exactly one file exceeds
the 100 MiB maximum, the whole request fails with status 500 and an error
naming that file, and no command is issued — the oversized file is
rejected before per-file processing begins. -/
theorem c7_oversize_rejected (disk : String → List Nat) (backend : Backend)
    (config : Option Config) (bucket path : String)
    (files : List UploadFile) (f : UploadFile)
    (hf : f ∈ files) (hbig : maxUploadSize < f.size)
    (hrest : ∀ g ∈ files, g ≠ f → g.size ≤ maxUploadSize) :
    runUpload disk backend config bucket path files =
      ([], HandlerResult.failure 500
        ("File size limit exceeded: " ++ f.originalName)) := by
  unfold runUpload readFormData
  have hfind : files.find? (fun g => decide (maxUploadSize < g.size)) = some f := by
    apply find?_of_unique hf (by simp [hbig])
    intro g hg hpg
    by_contra hne
    have hle := hrest g hg hne
    simp only [decide_eq_true_eq] at hpg
    omega
  rw [hfind]

/-- Witness for C7: one small and one oversized file; the request fails
naming the oversized file and issues no command. -/
theorem c7_oversize_rejected_witness :
    runUpload emptyDisk okBackend (some cfg0) "bk" "p/" [smallFile, bigFile] =
      ([], HandlerResult.failure 500 "File size limit exceeded: big.bin") :=
  c7_oversize_rejected emptyDisk okBackend (some cfg0) "bk" "p/"
    [smallFile, bigFile] bigFile (by simp) (by decide) (by decide)

/-- C8 (confirmed): the connect handler answers every success with status
200 and a success body, and every failure — invalid configuration or a
rejected ListBuckets call — with status 400 carrying the underlying error
message verbatim; /connect is the only route whose catch block sets status
400 rather than 500. -/
theorem c8_connect_statuses (backend : Backend) (config : Option Config) :
    ((runConnect backend config).2 =
        HandlerResult.success 200 "Connection successful"
      ∨ ∃ e, (runConnect backend config).2 = HandlerResult.failure 400 e)
    ∧ (∀ e, createS3Client config = Except.error e →
        (runConnect backend config).2 = HandlerResult.failure 400 e)
    ∧ (∀ cc, createS3Client config = Except.ok cc → ∀ e,
        backend S3Command.listBuckets = Except.error e →
        (runConnect backend config).2 = HandlerResult.failure 400 e)
    ∧ failureStatus Route.connect = 400
    ∧ (∀ r, r ≠ Route.connect → failureStatus r = 500) := by
  refine ⟨?_, ?_, ?_, rfl, ?_⟩
  · unfold runConnect
    rcases hc : createS3Client config with e | cc
    · exact Or.inr ⟨e, rfl⟩
    · rcases hbk : backend S3Command.listBuckets with e | u
      · exact Or.inr ⟨e, rfl⟩
      · exact Or.inl rfl
  · intro e he
    unfold runConnect
    rw [he]
  · intro cc hcc e he
    unfold runConnect
    rw [hcc, he]
  · intro r hr
    cases r
    all_goals first | rfl | exact absurd rfl hr

/-- Witness for C8: on a backend rejecting every call with message boom,
connecting with a valid config fails with status 400 and that message. -/
theorem c8_connect_statuses_witness :
    (runConnect errBackend (some cfg0)).2 = HandlerResult.failure 400 "boom" :=
  (c8_connect_statuses errBackend (some cfg0)).2.2.1 client0 rfl "boom" rfl

end S3Manager
